import Mathlib

/-!
# Keystroke Dynamics Authentication App — verification of `app.py`

A shallow embedding of the Flask application `app.py` of the keystroke-dynamics
authentication repository, together with models — built from the design
document — of the components the application imports but whose code is not in
the repository snapshot (`utils/feature_extractor.py`, `verify_optimized.py`,
`config.py`).

Python strings are modelled as lists of characters (`PyStr`); Python `int` as
`Int`; the float-valued timing and score quantities as `ℚ`; a Python value that
may be `None` as `Option`.  HTTP endpoint handlers become pure functions from
their request data plus the ambient effects they observe (configuration,
filesystem save outcome, verifier availability, clock) to a response value.
-/

set_option maxHeartbeats 1000000

namespace KeystrokeApp

/-- Python `str`, modelled as a list of characters. -/
abbrev PyStr := List Char

/-- Python `str.startswith`. -/
def startswith (pre s : PyStr) : Bool := List.isPrefixOf pre s

/-- Python `str.endswith`. -/
def endswith (suf s : PyStr) : Bool := List.isSuffixOf suf s

/-- Worker for `deleteAll`, structurally recursive on a fuel argument so that
it evaluates inside the kernel; each step consumes at least one character, so
fuel equal to the length of the string is always enough (the fuel-exhausted
branch returns the rest unchanged and is never reached from `deleteAll`). -/
def deleteAllGo : Nat → PyStr → PyStr → PyStr
  | 0, _, s => s
  | _ + 1, _, [] => []
  | fuel + 1, pat, c :: cs =>
    if pat ≠ [] ∧ List.isPrefixOf pat (c :: cs) then
      deleteAllGo fuel pat (List.drop pat.length (c :: cs))
    else
      c :: deleteAllGo fuel pat cs

/-- Python `str.replace(pat, '')` for a non-empty `pat`: delete every
occurrence of `pat`, scanning left to right, non-overlapping (CPython
semantics of `str.replace` with an empty replacement). -/
def deleteAll (pat s : PyStr) : PyStr := deleteAllGo s.length pat s

/-- One ASCII whitespace character, as stripped by CPython `int(str)`
(the model is restricted to ASCII input). -/
def pySpace (c : Char) : Bool :=
  c = ' ' || c = '\t' || c = '\n' || c = '\r' || c = '\x0b' || c = '\x0c'

/-- Digit run of a CPython integer literal: decimal digits in which a single
underscore may stand between two digits (never leading, trailing or doubled);
accumulates the value. -/
def parseDigitsAux (acc : Nat) : List Char → Option Nat
  | [] => some acc
  | c :: rest =>
    if c.isDigit then parseDigitsAux (10 * acc + (c.toNat - 48)) rest
    else if c = '_' then
      match rest with
      | [] => none
      | d :: _ => if d.isDigit then parseDigitsAux acc rest else none
    else none

/-- Digit run of a CPython integer literal; the first character must be a
digit. -/
def parseDigits : List Char → Option Nat
  | [] => none
  | c :: rest => if c.isDigit then parseDigitsAux 0 (c :: rest) else none

/-- CPython `int(str)` on ASCII input: optional surrounding whitespace, an
optional sign, then a digit run; `none` models `ValueError`. -/
def pyInt? (s : PyStr) : Option Int :=
  let core := ((s.dropWhile pySpace).reverse.dropWhile pySpace).reverse
  match core with
  | '+' :: rest => (parseDigits rest).map (fun n => (n : Int))
  | '-' :: rest => (parseDigits rest).map (fun n => -(n : Int))
  | rest => (parseDigits rest).map (fun n => (n : Int))

/-- The filter `f.startswith('sample') and f.endswith('.csv')` applied to the
data-directory listing in `get_next_sample_number` (and `api_statistics`). -/
def candidateFile (f : PyStr) : Bool :=
  startswith (("sample").toList) f && endswith ((".csv").toList) f

/-- `filename.replace('sample', '').replace('.csv', '')` from
`get_next_sample_number`: note that *every* occurrence of `'sample'` and of
`'.csv'` is deleted, not only the leading and trailing one. -/
def stripSampleCsv (f : PyStr) : PyStr :=
  deleteAll ((".csv").toList) (deleteAll (("sample").toList) f)

/-- `get_next_sample_number` from `app.py`, as a function of the
data-directory listing: filter the filenames to those that start with
`sample` and end with `.csv`; return `1` if there are none; otherwise parse
`int(f.replace('sample','').replace('.csv',''))` for each, skipping the ones
that raise `ValueError`, and return `max(numbers) + 1` if any parsed, else
`1`. -/
def get_next_sample_number (dirFiles : List PyStr) : Int :=
  let existing_files := dirFiles.filter candidateFile
  if existing_files.isEmpty then 1
  else
    let numbers := existing_files.filterMap (fun f => pyInt? (stripSampleCsv f))
    match numbers.max? with
    | some m => m + 1
    | none => 1

/-- The sample numbers the code actually extracts from a directory listing:
for each file that passes the `sample`/`.csv` filter, the integer obtained by
deleting every `'sample'` and `'.csv'` substring and parsing the remainder. -/
def extractedSampleNumbers (dirFiles : List PyStr) : List Int :=
  dirFiles.filterMap (fun f =>
    if candidateFile f then pyInt? (stripSampleCsv f) else none)

theorem extractedSampleNumbers_eq (dirFiles : List PyStr) :
    extractedSampleNumbers dirFiles =
      (dirFiles.filter candidateFile).filterMap (fun f => pyInt? (stripSampleCsv f)) := by
  induction dirFiles with
  | nil => rfl
  | cons f rest ih =>
    by_cases h : candidateFile f
    · cases hp : pyInt? (stripSampleCsv f) with
      | none =>
        simp [extractedSampleNumbers, List.filterMap_cons, List.filter_cons, h, hp] at ih ⊢
        exact ih
      | some n =>
        simp [extractedSampleNumbers, List.filterMap_cons, List.filter_cons, h, hp] at ih ⊢
        exact ih
    · simp [extractedSampleNumbers, List.filterMap_cons, List.filter_cons, h] at ih ⊢
      exact ih

theorem get_next_sample_number_eq (dirFiles : List PyStr) :
    get_next_sample_number dirFiles =
      match (extractedSampleNumbers dirFiles).max? with
      | some m => m + 1
      | none => 1 := by
  rw [extractedSampleNumbers_eq]
  unfold get_next_sample_number
  by_cases h : (dirFiles.filter candidateFile).isEmpty
  · rw [List.isEmpty_iff] at h
    simp [h]
  · simp [h]

/-- Claim C10 counterexample.  The claim says `get_next_sample_number` always
returns a positive integer, and returns one greater than the maximum `N`
among files named `sampleN.csv` with integer `N` (ignoring every other
`sample*.csv` file).  Both parts fail on the code: a directory holding only
`sample-5.csv` makes it return `-4` (not positive), and a directory holding
`sample1.csv` and `sample5sample.csv` makes it return `6` rather than `2`,
because `'sample5sample.csv'.replace('sample','').replace('.csv','')` deletes
*every* occurrence and leaves `'5'`, so a file that is not named
`sampleN.csv` for any integer `N` still contributes a number. -/
theorem C10_counterexample :
    get_next_sample_number [("sample-5.csv").toList] = -4
    ∧ get_next_sample_number
        [("sample1.csv").toList, ("sample5sample.csv").toList] = 6 := by
  decide

/-- Claim C10 (amended): for every state of the data directory,
`get_next_sample_number` returns `1` when no file that starts with `sample`
and ends with `.csv` yields an integer after deleting every `'sample'` and
`'.csv'` substring of its name, and otherwise one greater than the maximum
such integer; filenames whose stripped form is not an integer are skipped
rather than causing an error, and the result is ≥ 1 provided every extracted
integer is non-negative (it need not be positive in general). -/
theorem C10_get_next_sample_number (dirFiles : List PyStr) :
    (get_next_sample_number dirFiles =
      match (extractedSampleNumbers dirFiles).max? with
      | some m => m + 1
      | none => 1)
    ∧ ((∀ n ∈ extractedSampleNumbers dirFiles, 0 ≤ n) →
        1 ≤ get_next_sample_number dirFiles)
    ∧ (∀ f, candidateFile f = true → pyInt? (stripSampleCsv f) = none →
        get_next_sample_number (f :: dirFiles) = get_next_sample_number dirFiles) := by
  refine ⟨get_next_sample_number_eq dirFiles, ?_, ?_⟩
  · intro hpos
    rw [get_next_sample_number_eq]
    cases hmax : (extractedSampleNumbers dirFiles).max? with
    | none => exact le_refl 1
    | some m =>
      have hm : m ∈ extractedSampleNumbers dirFiles :=
        List.max?_mem (fun a b => max_choice a b) hmax
      have h0 := hpos m hm
      show (1 : Int) ≤ m + 1
      omega
  · intro f hf hp
    rw [get_next_sample_number_eq, get_next_sample_number_eq]
    have hsame : extractedSampleNumbers (f :: dirFiles) = extractedSampleNumbers dirFiles := by
      simp [extractedSampleNumbers, List.filterMap_cons, hf, hp]
    rw [hsame]

/-- Witness for claim C10: a directory holding only `sample3.csv` extracts
only the non-negative number `3`, so the amended theorem yields a result
≥ 1 there. -/
theorem C10_get_next_sample_number_w :
    1 ≤ get_next_sample_number [("sample3.csv").toList] :=
  (C10_get_next_sample_number [("sample3.csv").toList]).2.1 (by decide)

/-- One raw key event of a request: `{key, pressTime, releaseTime}`, the
timestamps being float milliseconds, modelled as rationals. -/
structure Keystroke where
  key : PyStr
  pressTime : ℚ
  releaseTime : ℚ
  deriving DecidableEq

/-- The output of `AdvancedFeatureExtractor.extract_comprehensive_features`
as read back by `api_verify` via `features.get(...)`.  The extractor's code
(`utils/feature_extractor.py`) is not part of the snapshot; per the design
document (§4.2) it always returns a fully populated feature vector, so it is
modelled as an opaque total record. -/
structure Features where
  dwell_mean : ℚ
  dwell_std : ℚ
  flight_mean : ℚ
  flight_std : ℚ
  total_time : ℚ
  typing_speed : ℚ
  dwell_flight_ratio : ℚ
  deriving DecidableEq

/-- The `authentication_result` dictionary of `api_verify`'s response. -/
structure AuthenticationResult where
  is_authentic : Bool
  confidence : ℚ
  ensemble_decision : PyStr
  model_agreement : ℚ
  final_decision : PyStr
  deriving DecidableEq

/-- The `typing_statistics` dictionary of `api_verify`'s response. -/
structure TypingStatistics where
  dwell_time_mean : ℚ
  dwell_time_std : ℚ
  flight_time_mean : ℚ
  flight_time_std : ℚ
  total_time : ℚ
  typing_speed : ℚ
  dwell_flight_ratio : ℚ
  deriving DecidableEq

/-- The `file_info` dictionary of `api_verify`'s response. -/
structure FileInfo where
  filename : PyStr
  saved_as : Option PyStr
  keystroke_count : Nat
  verification_time : PyStr
  deriving DecidableEq

/-- The `result` dictionary of `api_verify`'s success response. -/
structure VerifyResult where
  file_info : FileInfo
  authentication_result : AuthenticationResult
  typing_statistics : TypingStatistics
  deriving DecidableEq

/-- The JSON response of the `/api/verify` endpoint: either an error body
with its HTTP status code, or the success body (`result` plus the top-level
`saved_file` field). -/
inductive VerifyResponse where
  | error (status : Nat) (message : PyStr)
  | success (result : VerifyResult) (saved_file : Option PyStr)
  deriving DecidableEq

/-- The hardcoded `authentication_result` literal of `api_verify`
(`app.py` lines 187–193); the source comments call it a placeholder that a
real implementation would replace with a model prediction. -/
def hardcodedAuthResult : AuthenticationResult :=
  { is_authentic := true
    confidence := 85
    ensemble_decision := ("Legitimate").toList
    model_agreement := 95
    final_decision := ("AUTHENTICATED").toList }

/-- Everything `api_verify` observes besides the parsed request body:
`Config.MIN_KEYSTROKES`, the feature extractor, the outcome of
`save_keystroke_data` (`none` models the `(None, None)` failure return),
whether `get_verifier()` produced an instance, and the clock string. -/
structure VerifyEnv where
  MIN_KEYSTROKES : Nat
  extract : List Keystroke → Features
  saveOutcome : Option (PyStr × Int)
  verifierAvailable : Bool
  now : PyStr

/-- Python truthiness of `sample_number` as used in
`f'sample{sample_number}.csv' if sample_number else ...`: both `None` and
`0` are falsy.  Returns the sample filename when truthy. -/
def sampleTag (sample_number : Option Int) : Option PyStr :=
  match sample_number with
  | none => none
  | some n =>
    if n = 0 then none
    else some ((("sample").toList) ++ (toString n).toList ++ ((".csv").toList))

/-- The `/api/verify` handler of `app.py` as a pure function.  `none` for
`data` models a request body without usable keystroke data (the
`not data or 'keystrokes' not in data` branch).  The handler validates the
keystroke count, saves the sample (continuing on failure), extracts
features, checks verifier availability, and returns the response literal of
lines 180–209. -/
def api_verify (env : VerifyEnv) (data : Option (List Keystroke)) : VerifyResponse :=
  match data with
  | none => VerifyResponse.error 400 (("No keystroke data provided").toList)
  | some keystrokes =>
    if keystrokes.length < env.MIN_KEYSTROKES then
      VerifyResponse.error 400
        ((("Insufficient keystrokes. Minimum required: ").toList)
          ++ (toString env.MIN_KEYSTROKES).toList)
    else
      let sample_number : Option Int := env.saveOutcome.map Prod.snd
      let features : Features := env.extract keystrokes
      if env.verifierAvailable = false then
        VerifyResponse.error 503 (("Verification system not available").toList)
      else
        VerifyResponse.success
          { file_info :=
              { filename := (sampleTag sample_number).getD (("realtime_verification").toList)
                saved_as := sampleTag sample_number
                keystroke_count := keystrokes.length
                verification_time := env.now }
            authentication_result := hardcodedAuthResult
            typing_statistics :=
              { dwell_time_mean := features.dwell_mean
                dwell_time_std := features.dwell_std
                flight_time_mean := features.flight_mean
                flight_time_std := features.flight_std
                total_time := features.total_time
                typing_speed := features.typing_speed
                dwell_flight_ratio := features.dwell_flight_ratio } }
          (sampleTag sample_number)

/-- HTTP status code of a `/api/verify` response (`none` for the HTTP-200
success response). -/
def statusOf : VerifyResponse → Option Nat
  | VerifyResponse.error s _ => some s
  | VerifyResponse.success _ _ => none

/-- The `authentication_result` block of a success response. -/
def authResultOf : VerifyResponse → Option AuthenticationResult
  | VerifyResponse.error _ _ => none
  | VerifyResponse.success r _ => some r.authentication_result

/-- The `typing_statistics` block of a success response. -/
def statsOf : VerifyResponse → Option TypingStatistics
  | VerifyResponse.error _ _ => none
  | VerifyResponse.success r _ => some r.typing_statistics

/-- The `file_info` block of a success response. -/
def fileInfoOf : VerifyResponse → Option FileInfo
  | VerifyResponse.error _ _ => none
  | VerifyResponse.success r _ => some r.file_info

/-- The top-level `saved_file` field of a success response. -/
def savedFileOf : VerifyResponse → Option (Option PyStr)
  | VerifyResponse.error _ _ => none
  | VerifyResponse.success _ sf => some sf

/-- The uploaded file of an `/api/analyze` request. -/
structure UploadedFile where
  filename : PyStr
  deriving DecidableEq

/-- The JSON response of the `/api/analyze` endpoint; `R` is the shape of
`verifier.verify_keystroke_file`'s result (the verifier's code is not in the
snapshot). -/
inductive AnalyzeResponse (R : Type) where
  | error (status : Nat) (message : PyStr)
  | success (result : R)
  deriving DecidableEq

/-- The `/api/analyze` handler of `app.py` as a pure function.
`verify_keystroke_file` stands for the bound method
`verifier_instance.verify_keystroke_file`; `none` models a falsy result
(the `if result: ... else 500` branch), `temp_path` the timestamped
location where the upload was saved. -/
def api_analyze {R : Type} (verifierAvailable : Bool)
    (verify_keystroke_file : PyStr → Option R) (temp_path : PyStr)
    (file : Option UploadedFile) : AnalyzeResponse R :=
  match file with
  | none => AnalyzeResponse.error 400 (("No file provided").toList)
  | some f =>
    if f.filename = [] then
      AnalyzeResponse.error 400 (("No file selected").toList)
    else if endswith ((".csv").toList) f.filename = false then
      AnalyzeResponse.error 400 (("Only CSV files are supported").toList)
    else if verifierAvailable = false then
      AnalyzeResponse.error 503 (("Verification system not available").toList)
    else
      match verify_keystroke_file temp_path with
      | some result => AnalyzeResponse.success result
      | none => AnalyzeResponse.error 500 (("Verification failed").toList)

/-- Claim C2: any two keystroke inputs that pass the minimum-keystroke check
and reach the verification step (verifier available) receive the same fixed
authentication decision — `is_authentic = true`, `confidence = 85.0`,
`ensemble_decision = 'Legitimate'`, `model_agreement = 95.0`,
`final_decision = 'AUTHENTICATED'` — so the verdict does not depend on the
keystroke input at all. -/
theorem C2_fixed_stub_decision (env : VerifyEnv) (ks1 ks2 : List Keystroke)
    (h1 : env.MIN_KEYSTROKES ≤ ks1.length) (h2 : env.MIN_KEYSTROKES ≤ ks2.length)
    (hv : env.verifierAvailable = true) :
    authResultOf (api_verify env (some ks1)) = authResultOf (api_verify env (some ks2))
    ∧ authResultOf (api_verify env (some ks1)) =
        some { is_authentic := true
               confidence := 85
               ensemble_decision := ("Legitimate").toList
               model_agreement := 95
               final_decision := ("AUTHENTICATED").toList } := by
  have h1' : ¬ ks1.length < env.MIN_KEYSTROKES := not_lt.mpr h1
  have h2' : ¬ ks2.length < env.MIN_KEYSTROKES := not_lt.mpr h2
  constructor <;> simp [api_verify, authResultOf, h1', h2', hv, hardcodedAuthResult]

/-- A sample feature vector, used only to instantiate witnesses. -/
def demoFeatures : Features := ⟨0, 0, 0, 0, 0, 0, 0⟩

/-- A sample environment with `MIN_KEYSTROKES = 1`, save failure, and an
available verifier, used only to instantiate witnesses. -/
def envA : VerifyEnv := ⟨1, fun _ => demoFeatures, none, true, []⟩

/-- Like `envA` but with the verifier unavailable. -/
def envU : VerifyEnv := ⟨1, fun _ => demoFeatures, none, false, []⟩

/-- A sample keystroke. -/
def kA : Keystroke := ⟨("a").toList, 0, 80⟩

/-- Another sample keystroke. -/
def kB : Keystroke := ⟨("b").toList, 150, 210⟩

/-- Witness for claim C2 at two concrete inputs. -/
theorem C2_fixed_stub_decision_w :
    envA.MIN_KEYSTROKES ≤ [kA].length
    ∧ (authResultOf (api_verify envA (some [kA]))
          = authResultOf (api_verify envA (some [kA, kB]))
       ∧ authResultOf (api_verify envA (some [kA])) = some hardcodedAuthResult) :=
  ⟨by decide, C2_fixed_stub_decision envA [kA] [kA, kB] (by decide) (by decide) rfl⟩

/-- Claim C3: an input event sequence shorter than `MIN_KEYSTROKES` gets the
client-input error response (HTTP 400, the insufficient-keystrokes message)
and never a verification result. -/
theorem C3_insufficient_keystrokes (env : VerifyEnv) (ks : List Keystroke)
    (h : ks.length < env.MIN_KEYSTROKES) :
    api_verify env (some ks) =
      VerifyResponse.error 400
        ((("Insufficient keystrokes. Minimum required: ").toList)
          ++ (toString env.MIN_KEYSTROKES).toList)
    ∧ ∀ (r : VerifyResult) (sf : Option PyStr),
        api_verify env (some ks) ≠ VerifyResponse.success r sf := by
  constructor
  · simp [api_verify, h]
  · intro r sf hc
    simp [api_verify, h] at hc

/-- Witness for claim C3: the empty keystroke list is below the minimum. -/
theorem C3_insufficient_keystrokes_w :
    ([] : List Keystroke).length < envA.MIN_KEYSTROKES
    ∧ (api_verify envA (some []) =
        VerifyResponse.error 400
          ((("Insufficient keystrokes. Minimum required: ").toList)
            ++ (toString envA.MIN_KEYSTROKES).toList)
       ∧ ∀ (r : VerifyResult) (sf : Option PyStr),
          api_verify envA (some []) ≠ VerifyResponse.success r sf) :=
  ⟨by decide, C3_insufficient_keystrokes envA [] (by decide)⟩

/-- Claim C6: with enough keystrokes but no verifier instance the request
fails with the service-unavailable response (HTTP 503), and no input ever
receives both the 400 and the 503 classification. -/
theorem C6_unavailable_distinct (env : VerifyEnv) (ks : List Keystroke)
    (h : env.MIN_KEYSTROKES ≤ ks.length) (hv : env.verifierAvailable = false) :
    api_verify env (some ks) =
      VerifyResponse.error 503 (("Verification system not available").toList)
    ∧ statusOf (api_verify env (some ks)) ≠ some 400
    ∧ ∀ (env' : VerifyEnv) (d : Option (List Keystroke)),
        ¬ (statusOf (api_verify env' d) = some 400
           ∧ statusOf (api_verify env' d) = some 503) := by
  have h' : ¬ ks.length < env.MIN_KEYSTROKES := not_lt.mpr h
  refine ⟨by simp [api_verify, h', hv], by simp [api_verify, statusOf, h', hv], ?_⟩
  intro env' d hc
  have hcontra := hc.1.symm.trans hc.2
  simp at hcontra

/-- Witness for claim C6 at a concrete input. -/
theorem C6_unavailable_distinct_w :
    envU.MIN_KEYSTROKES ≤ [kA].length
    ∧ (api_verify envU (some [kA]) =
        VerifyResponse.error 503 (("Verification system not available").toList)
       ∧ statusOf (api_verify envU (some [kA])) ≠ some 400
       ∧ ∀ (env' : VerifyEnv) (d : Option (List Keystroke)),
          ¬ (statusOf (api_verify env' d) = some 400
             ∧ statusOf (api_verify env' d) = some 503)) :=
  ⟨by decide, C6_unavailable_distinct envU [kA] (by decide) rfl⟩

/-- Claim C7: every successful verification response carries the decision
block (which, with its five fields, is the hardcoded placeholder) and a
`typing_statistics` block with exactly the seven wire-contract fields,
holding the extracted feature-vector values verbatim. -/
theorem C7_response_shape (env : VerifyEnv) (ks : List Keystroke)
    (h : env.MIN_KEYSTROKES ≤ ks.length) (hv : env.verifierAvailable = true) :
    statsOf (api_verify env (some ks)) =
      some { dwell_time_mean := (env.extract ks).dwell_mean
             dwell_time_std := (env.extract ks).dwell_std
             flight_time_mean := (env.extract ks).flight_mean
             flight_time_std := (env.extract ks).flight_std
             total_time := (env.extract ks).total_time
             typing_speed := (env.extract ks).typing_speed
             dwell_flight_ratio := (env.extract ks).dwell_flight_ratio }
    ∧ authResultOf (api_verify env (some ks)) = some hardcodedAuthResult := by
  have h' : ¬ ks.length < env.MIN_KEYSTROKES := not_lt.mpr h
  constructor <;> simp [api_verify, statsOf, authResultOf, h', hv]

/-- Witness for claim C7 at a concrete input. -/
theorem C7_response_shape_w :
    envA.MIN_KEYSTROKES ≤ [kA].length
    ∧ (statsOf (api_verify envA (some [kA])) =
        some { dwell_time_mean := (envA.extract [kA]).dwell_mean
               dwell_time_std := (envA.extract [kA]).dwell_std
               flight_time_mean := (envA.extract [kA]).flight_mean
               flight_time_std := (envA.extract [kA]).flight_std
               total_time := (envA.extract [kA]).total_time
               typing_speed := (envA.extract [kA]).typing_speed
               dwell_flight_ratio := (envA.extract [kA]).dwell_flight_ratio }
       ∧ authResultOf (api_verify envA (some [kA])) = some hardcodedAuthResult) :=
  ⟨by decide, C7_response_shape envA [kA] (by decide) rfl⟩

/-- Claim C8 (code bug): the realtime entry point's authentication result is
the hardcoded placeholder — the same for every environment and every valid
input, so no scoring is applied — whereas the batch entry point returns
whatever the verifier's `verify_keystroke_file` produces; the two entry
points therefore do not share the scoring path beyond input parsing. -/
theorem C8_entry_points_diverge :
    (∀ (env : VerifyEnv) (ks : List Keystroke),
        env.MIN_KEYSTROKES ≤ ks.length → env.verifierAvailable = true →
        authResultOf (api_verify env (some ks)) = some hardcodedAuthResult)
    ∧ (∀ (R : Type) (vkf : PyStr → Option R) (temp : PyStr) (f : UploadedFile)
        (r : R), f.filename ≠ [] → endswith ((".csv").toList) f.filename = true →
        vkf temp = some r →
        api_analyze true vkf temp (some f) = AnalyzeResponse.success r) := by
  constructor
  · intro env ks h hv
    have h' : ¬ ks.length < env.MIN_KEYSTROKES := not_lt.mpr h
    simp [api_verify, authResultOf, h', hv]
  · intro R vkf temp f r hne hcsv hr
    have hcsv' : endswith (['.', 'c', 's', 'v']) f.filename = true := hcsv
    simp [api_analyze, hne, hcsv', hr]

/-- Witness for claim C8: a concrete valid realtime request yields the
placeholder, and a concrete batch request yields the verifier's result. -/
theorem C8_entry_points_diverge_w :
    authResultOf (api_verify envA (some [kA])) = some hardcodedAuthResult
    ∧ api_analyze true (fun _ => some 1) [] (some ⟨("a.csv").toList⟩) =
        AnalyzeResponse.success 1 :=
  ⟨C8_entry_points_diverge.1 envA [kA] (by decide) rfl,
   C8_entry_points_diverge.2 Nat (fun _ => some 1) [] ⟨("a.csv").toList⟩ 1
     (by decide) (by decide) rfl⟩

/-- Claim C9: when saving the sample fails (`save_keystroke_data` returns
`None`), `api_verify` still returns a success response whose
`authentication_result` and `typing_statistics` are identical to those it
returns when saving succeeds, and whose `file_info` keystroke count and
timestamp also agree; only the filename-related fields differ, holding
`'realtime_verification'` and nulls instead of the sample name. -/
theorem C9_save_failure_frame (MIN : Nat) (extract : List Keystroke → Features)
    (now : PyStr) (ks : List Keystroke) (fp : PyStr) (n : Int)
    (h : MIN ≤ ks.length) :
    authResultOf (api_verify ⟨MIN, extract, none, true, now⟩ (some ks))
      = authResultOf (api_verify ⟨MIN, extract, some (fp, n), true, now⟩ (some ks))
    ∧ statsOf (api_verify ⟨MIN, extract, none, true, now⟩ (some ks))
      = statsOf (api_verify ⟨MIN, extract, some (fp, n), true, now⟩ (some ks))
    ∧ fileInfoOf (api_verify ⟨MIN, extract, none, true, now⟩ (some ks))
      = some ⟨("realtime_verification").toList, none, ks.length, now⟩
    ∧ savedFileOf (api_verify ⟨MIN, extract, none, true, now⟩ (some ks)) = some none
    ∧ (fileInfoOf (api_verify ⟨MIN, extract, some (fp, n), true, now⟩ (some ks))).map
        FileInfo.keystroke_count = some ks.length
    ∧ (fileInfoOf (api_verify ⟨MIN, extract, some (fp, n), true, now⟩ (some ks))).map
        FileInfo.verification_time = some now := by
  have h' : ¬ ks.length < MIN := not_lt.mpr h
  refine ⟨?_, ?_, ?_, ?_, ?_, ?_⟩ <;>
    simp [api_verify, authResultOf, statsOf, fileInfoOf, savedFileOf, sampleTag, h']

/-- Witness for claim C9 at a concrete input and save outcome. -/
theorem C9_save_failure_frame_w :
    (1 : Nat) ≤ [kA].length
    ∧ (authResultOf (api_verify ⟨1, fun _ => demoFeatures, none, true, []⟩ (some [kA]))
        = authResultOf
            (api_verify ⟨1, fun _ => demoFeatures, some (([]), 7), true, []⟩ (some [kA]))
       ∧ statsOf (api_verify ⟨1, fun _ => demoFeatures, none, true, []⟩ (some [kA]))
        = statsOf
            (api_verify ⟨1, fun _ => demoFeatures, some (([]), 7), true, []⟩ (some [kA]))
       ∧ fileInfoOf (api_verify ⟨1, fun _ => demoFeatures, none, true, []⟩ (some [kA]))
        = some ⟨("realtime_verification").toList, none, [kA].length, []⟩
       ∧ savedFileOf (api_verify ⟨1, fun _ => demoFeatures, none, true, []⟩ (some [kA]))
        = some none
       ∧ (fileInfoOf
            (api_verify ⟨1, fun _ => demoFeatures, some (([]), 7), true, []⟩
              (some [kA]))).map FileInfo.keystroke_count = some [kA].length
       ∧ (fileInfoOf
            (api_verify ⟨1, fun _ => demoFeatures, some (([]), 7), true, []⟩
              (some [kA]))).map FileInfo.verification_time = some []) :=
  ⟨by decide,
   C9_save_failure_frame 1 (fun _ => demoFeatures) [] [kA] [] 7 (by decide)⟩

deriving instance DecidableEq for Except

/-- Validation failures of the Event Normalizer (design §4.1/§7). -/
inductive ValidationError where
  | insufficient_keystrokes
  | malformed_timing
  deriving DecidableEq

/-- Stable insertion into a press-time-sorted event list: the inserted event
goes before the first strictly later event and after earlier-or-equal ones
only when strictly later, so original order is kept among equal press
times. -/
def insertByPress (e : Keystroke) : List Keystroke → List Keystroke
  | [] => [e]
  | x :: xs =>
    if e.pressTime ≤ x.pressTime then e :: x :: xs else x :: insertByPress e xs

/-- Stable sort of the events by press time ascending. -/
def sortByPress : List Keystroke → List Keystroke
  | [] => []
  | e :: es => insertByPress e (sortByPress es)

/-- Modelled from the spec: the Event Normalizer `normalize(rawEvents)` of
design §4.1 is missing from the snapshot — `app.py` checks only the
keystroke count before feature extraction, and `utils/feature_extractor.py`
is absent.  Per §4.1 it validates `count ≥ MIN_KEYSTROKES`, then
`releaseTime ≥ pressTime` for each event — failing with
`insufficient_keystrokes` resp. `malformed_timing`, in that order — and
returns the session sorted stably by press time. -/
def normalize (MIN_KEYSTROKES : Nat) (rawEvents : List Keystroke) :
    Except ValidationError (List Keystroke) :=
  if rawEvents.length < MIN_KEYSTROKES then
    Except.error ValidationError.insufficient_keystrokes
  else if rawEvents.any (fun e => e.releaseTime < e.pressTime) then
    Except.error ValidationError.malformed_timing
  else
    Except.ok (sortByPress rawEvents)

/-- Claim C4 counterexample: a single malformed event (release 5 before
press 10) below the minimum count of 2 fails with
`insufficient_keystrokes`, not `malformed_timing` — the count is validated
first, so the claim's "for every input count" is false. -/
theorem C4_counterexample :
    (⟨("a").toList, 10, 5⟩ : Keystroke).releaseTime
        < (⟨("a").toList, 10, 5⟩ : Keystroke).pressTime
    ∧ normalize 2 [⟨("a").toList, 10, 5⟩]
        = Except.error ValidationError.insufficient_keystrokes
    ∧ normalize 2 [⟨("a").toList, 10, 5⟩]
        ≠ Except.error ValidationError.malformed_timing := by
  refine ⟨by norm_num, rfl, ?_⟩
  intro h
  rw [(rfl : normalize 2 [⟨("a").toList, 10, 5⟩]
        = Except.error ValidationError.insufficient_keystrokes)] at h
  exact ValidationError.noConfusion (Except.error.inj h)

/-- Claim C4 (amended): for every raw event sequence of count at least
`MIN_KEYSTROKES` that contains an event whose release time is strictly
before its press time, normalization fails with
`ValidationError("malformed_timing")` and never yields a session, so no
feature extraction or scoring can follow. -/
theorem C4_malformed_timing (MIN : Nat) (events : List Keystroke)
    (hlen : MIN ≤ events.length)
    (hbad : events.any (fun e => e.releaseTime < e.pressTime) = true) :
    normalize MIN events = Except.error ValidationError.malformed_timing
    ∧ ∀ s, normalize MIN events ≠ Except.ok s := by
  have h' : ¬ events.length < MIN := not_lt.mpr hlen
  constructor
  · simp [normalize, h', hbad]
  · intro s hc
    simp [normalize, h', hbad] at hc

/-- Witness for claim C4 at a concrete malformed event with a satisfied
minimum count. -/
theorem C4_malformed_timing_w :
    (1 : Nat) ≤ [(⟨("a").toList, 10, 5⟩ : Keystroke)].length
    ∧ [(⟨("a").toList, 10, 5⟩ : Keystroke)].any
        (fun e => e.releaseTime < e.pressTime) = true
    ∧ (normalize 1 [(⟨("a").toList, 10, 5⟩ : Keystroke)]
        = Except.error ValidationError.malformed_timing
       ∧ ∀ s, normalize 1 [(⟨("a").toList, 10, 5⟩ : Keystroke)] ≠ Except.ok s) :=
  ⟨by decide, by decide, C4_malformed_timing 1 _ (by decide) (by decide)⟩

/-- A classifier's vote (design §4.3): identifier, normalized score, boolean
verdict, and its configured fusion weight (1 unless configured). -/
structure Vote where
  classifier : PyStr
  score : ℚ
  verdict : Bool
  weight : ℚ
  deriving DecidableEq

/-- Fusion failure (design §4.4): every classifier failed to vote. -/
inductive ModelUnavailableError where
  | no_votes
  deriving DecidableEq

/-- Final decision enum of a `VerificationResult` (design §3). -/
inductive FinalDecision where
  | AUTHENTICATED
  | REJECTED
  deriving DecidableEq

/-- Ensemble decision enum of a `VerificationResult` (design §3). -/
inductive EnsembleDecision where
  | Legitimate
  | Impostor
  deriving DecidableEq

/-- The `VerificationResult` value produced by ensemble fusion (design §3). -/
structure VerificationResult where
  is_authentic : Bool
  confidence : ℚ
  ensemble_decision : EnsembleDecision
  model_agreement : ℚ
  final_decision : FinalDecision
  deriving DecidableEq

/-- Weighted-average confidence of the votes (design §4.4). -/
def fusedConfidence (votes : List Vote) : ℚ :=
  (votes.map (fun v => v.weight * v.score)).sum / (votes.map Vote.weight).sum

/-- Number of votes with a `true` verdict. -/
def trueVotes (votes : List Vote) : Nat :=
  (votes.filter (fun v => v.verdict)).length

/-- Majority verdict over the votes; an even split resolves toward the
rejecting side (design §4.4). -/
def majorityVerdict (votes : List Vote) : Bool :=
  votes.length < 2 * trueVotes votes

/-- Percentage of votes whose verdict matches the majority verdict
(design §4.4). -/
def modelAgreement (votes : List Vote) : ℚ :=
  100 * ((votes.filter (fun v => v.verdict == majorityVerdict votes)).length : ℚ)
    / (votes.length : ℚ)

/-- The fusion decision rule of design §4.4: `AUTHENTICATED` iff the fused
confidence reaches `CONFIDENCE_THRESHOLD` and the agreement reaches
`AGREEMENT_THRESHOLD`, else `REJECTED`. -/
def finalDecisionOf (CONFIDENCE_THRESHOLD AGREEMENT_THRESHOLD : ℚ)
    (votes : List Vote) : FinalDecision :=
  if CONFIDENCE_THRESHOLD ≤ fusedConfidence votes
      ∧ AGREEMENT_THRESHOLD ≤ modelAgreement votes then
    FinalDecision.AUTHENTICATED
  else FinalDecision.REJECTED

/-- Modelled from the spec: Ensemble Fusion `fuse(votes)` of design §4.4 —
the fusion code (`verify_optimized.OptimizedKeystrokeVerifier`) is not under
`src/`; the realtime endpoint in `app.py` bypasses it with a hardcoded
placeholder.  It requires at least one vote (else
`ModelUnavailableError("no_votes")`), computes the weighted confidence, the
majority verdict, and the agreement percentage, and applies the threshold
decision rule, `is_authentic` mirroring the final decision. -/
def fuse (CONFIDENCE_THRESHOLD AGREEMENT_THRESHOLD : ℚ) (votes : List Vote) :
    Except ModelUnavailableError VerificationResult :=
  match votes with
  | [] => Except.error ModelUnavailableError.no_votes
  | _ :: _ =>
    Except.ok
      { is_authentic :=
          decide (finalDecisionOf CONFIDENCE_THRESHOLD AGREEMENT_THRESHOLD votes
            = FinalDecision.AUTHENTICATED)
        confidence := fusedConfidence votes
        ensemble_decision :=
          if majorityVerdict votes then EnsembleDecision.Legitimate
          else EnsembleDecision.Impostor
        model_agreement := modelAgreement votes
        final_decision := finalDecisionOf CONFIDENCE_THRESHOLD AGREEMENT_THRESHOLD votes }

theorem finalDecisionOf_eq_iff (c a : ℚ) (votes : List Vote) :
    finalDecisionOf c a votes = FinalDecision.AUTHENTICATED ↔
      (c ≤ fusedConfidence votes ∧ a ≤ modelAgreement votes) := by
  unfold finalDecisionOf
  by_cases hcond : c ≤ fusedConfidence votes ∧ a ≤ modelAgreement votes
  · simp [hcond]
  · simp [hcond]

theorem finalDecision_dichotomy (d : FinalDecision) :
    d ≠ FinalDecision.AUTHENTICATED → d = FinalDecision.REJECTED := by
  cases d with
  | AUTHENTICATED => intro h; exact absurd rfl h
  | REJECTED => intro _; rfl

theorem fuse_ok_fields (c a : ℚ) (votes : List Vote) (r : VerificationResult)
    (hr : fuse c a votes = Except.ok r) :
    r.final_decision = finalDecisionOf c a votes
    ∧ r.confidence = fusedConfidence votes
    ∧ r.model_agreement = modelAgreement votes := by
  cases votes with
  | nil => simp [fuse] at hr
  | cons v vs =>
    simp only [fuse, Except.ok.injEq] at hr
    subst hr
    exact ⟨rfl, rfl, rfl⟩

/-- Claim C1: for any fixed set of votes, fusion decides `AUTHENTICATED`
exactly when the fused confidence reaches `CONFIDENCE_THRESHOLD` and the
model agreement reaches `AGREEMENT_THRESHOLD`; in every other case the
decision is `REJECTED`, and the result's confidence and agreement fields
are the fused values themselves. -/
theorem C1_fuse_decision_iff (cThr aThr : ℚ) (votes : List Vote)
    (r : VerificationResult) (hr : fuse cThr aThr votes = Except.ok r) :
    (r.final_decision = FinalDecision.AUTHENTICATED ↔
      (cThr ≤ fusedConfidence votes ∧ aThr ≤ modelAgreement votes))
    ∧ (r.final_decision ≠ FinalDecision.AUTHENTICATED →
        r.final_decision = FinalDecision.REJECTED)
    ∧ r.confidence = fusedConfidence votes
    ∧ r.model_agreement = modelAgreement votes := by
  obtain ⟨hd, hc, ha⟩ := fuse_ok_fields cThr aThr votes r hr
  refine ⟨?_, finalDecision_dichotomy r.final_decision, hc, ha⟩
  rw [hd]
  exact finalDecisionOf_eq_iff cThr aThr votes

/-- Three example votes (scores 90, 85, 40; verdicts true, true, false;
equal weight), used only to instantiate witnesses. -/
def demoVotes : List Vote :=
  [⟨("distance").toList, 90, true, 1⟩,
   ⟨("statistical").toList, 85, true, 1⟩,
   ⟨("threshold").toList, 40, false, 1⟩]

/-- The fusion result of `demoVotes` at thresholds 75/60: confidence 215/3
(≈ 71.7) misses 75, so the decision is `REJECTED`. -/
def demoFusedRejected : VerificationResult :=
  ⟨false, 215 / 3, EnsembleDecision.Legitimate, 200 / 3, FinalDecision.REJECTED⟩

/-- The fusion result of `demoVotes` at thresholds 70/60: both thresholds
are met, so the decision is `AUTHENTICATED`. -/
def demoFusedAuth : VerificationResult :=
  ⟨true, 215 / 3, EnsembleDecision.Legitimate, 200 / 3, FinalDecision.AUTHENTICATED⟩

theorem fusedConfidence_demoVotes : fusedConfidence demoVotes = 215 / 3 := by
  simp [fusedConfidence, demoVotes]
  norm_num

theorem modelAgreement_demoVotes : modelAgreement demoVotes = 200 / 3 := by
  simp [modelAgreement, demoVotes, majorityVerdict, trueVotes]
  norm_num

theorem fuse_demoVotes_75 : fuse 75 60 demoVotes = Except.ok demoFusedRejected := by
  have hd : finalDecisionOf 75 60 demoVotes = FinalDecision.REJECTED := by
    rw [finalDecisionOf, if_neg]
    rw [fusedConfidence_demoVotes, modelAgreement_demoVotes]
    intro hcontra
    have h1 := hcontra.1
    norm_num at h1
  have hm : majorityVerdict demoVotes = true := rfl
  rw [show fuse 75 60 demoVotes = Except.ok
      { is_authentic := decide (finalDecisionOf 75 60 demoVotes = FinalDecision.AUTHENTICATED)
        confidence := fusedConfidence demoVotes
        ensemble_decision :=
          if majorityVerdict demoVotes then EnsembleDecision.Legitimate
          else EnsembleDecision.Impostor
        model_agreement := modelAgreement demoVotes
        final_decision := finalDecisionOf 75 60 demoVotes } from rfl]
  rw [fusedConfidence_demoVotes, modelAgreement_demoVotes, hd, hm]
  rfl

theorem fuse_demoVotes_70 : fuse 70 60 demoVotes = Except.ok demoFusedAuth := by
  have hd : finalDecisionOf 70 60 demoVotes = FinalDecision.AUTHENTICATED := by
    rw [finalDecisionOf, if_pos]
    rw [fusedConfidence_demoVotes, modelAgreement_demoVotes]
    constructor <;> norm_num
  have hm : majorityVerdict demoVotes = true := rfl
  rw [show fuse 70 60 demoVotes = Except.ok
      { is_authentic := decide (finalDecisionOf 70 60 demoVotes = FinalDecision.AUTHENTICATED)
        confidence := fusedConfidence demoVotes
        ensemble_decision :=
          if majorityVerdict demoVotes then EnsembleDecision.Legitimate
          else EnsembleDecision.Impostor
        model_agreement := modelAgreement demoVotes
        final_decision := finalDecisionOf 70 60 demoVotes } from rfl]
  rw [fusedConfidence_demoVotes, modelAgreement_demoVotes, hd, hm]
  rfl

/-- Witness for claim C1 on the three example votes at thresholds 75/60. -/
theorem C1_fuse_decision_iff_w :
    fuse 75 60 demoVotes = Except.ok demoFusedRejected
    ∧ ((demoFusedRejected.final_decision = FinalDecision.AUTHENTICATED ↔
        ((75 : ℚ) ≤ fusedConfidence demoVotes ∧ (60 : ℚ) ≤ modelAgreement demoVotes))
       ∧ (demoFusedRejected.final_decision ≠ FinalDecision.AUTHENTICATED →
          demoFusedRejected.final_decision = FinalDecision.REJECTED)
       ∧ demoFusedRejected.confidence = fusedConfidence demoVotes
       ∧ demoFusedRejected.model_agreement = modelAgreement demoVotes) :=
  ⟨fuse_demoVotes_75,
   C1_fuse_decision_iff 75 60 demoVotes demoFusedRejected fuse_demoVotes_75⟩

/-- Claim C5: raising either threshold while holding the votes fixed is
monotone — it never turns a rejected result into an authenticated one, and
an authenticated result can only move toward rejection. -/
theorem C5_threshold_monotone (c c' a a' : ℚ) (votes : List Vote)
    (r r' : VerificationResult) (hc : c ≤ c') (ha : a ≤ a')
    (hr : fuse c a votes = Except.ok r) (hr' : fuse c' a' votes = Except.ok r') :
    (r'.final_decision = FinalDecision.AUTHENTICATED →
      r.final_decision = FinalDecision.AUTHENTICATED)
    ∧ (r.final_decision = FinalDecision.REJECTED →
      r'.final_decision = FinalDecision.REJECTED) := by
  obtain ⟨hd, -, -⟩ := fuse_ok_fields c a votes r hr
  obtain ⟨hd', -, -⟩ := fuse_ok_fields c' a' votes r' hr'
  have hmono : r'.final_decision = FinalDecision.AUTHENTICATED →
      r.final_decision = FinalDecision.AUTHENTICATED := by
    intro hA
    rw [hd'] at hA
    rw [hd]
    obtain ⟨h1, h2⟩ := (finalDecisionOf_eq_iff c' a' votes).mp hA
    exact (finalDecisionOf_eq_iff c a votes).mpr ⟨le_trans hc h1, le_trans ha h2⟩
  refine ⟨hmono, ?_⟩
  intro hR
  cases hcase : r'.final_decision with
  | REJECTED => rfl
  | AUTHENTICATED =>
    have := hmono hcase
    rw [hR] at this
    exact (FinalDecision.noConfusion this)

/-- Witness for claim C5: the example votes are authenticated at thresholds
70/60 and rejected once the confidence threshold is raised to 75. -/
theorem C5_threshold_monotone_w :
    (70 : ℚ) ≤ 75
    ∧ fuse 70 60 demoVotes = Except.ok demoFusedAuth
    ∧ fuse 75 60 demoVotes = Except.ok demoFusedRejected
    ∧ ((demoFusedRejected.final_decision = FinalDecision.AUTHENTICATED →
        demoFusedAuth.final_decision = FinalDecision.AUTHENTICATED)
       ∧ (demoFusedAuth.final_decision = FinalDecision.REJECTED →
          demoFusedRejected.final_decision = FinalDecision.REJECTED)) :=
  ⟨by norm_num, fuse_demoVotes_70, fuse_demoVotes_75,
   C5_threshold_monotone 70 75 60 60 demoVotes demoFusedAuth demoFusedRejected
     (by norm_num) (le_refl 60) fuse_demoVotes_70 fuse_demoVotes_75⟩

end KeystrokeApp
